import Mathlib

/-!
Verification development for the Dish Ingredient Resolution & Aggregation
Pipeline of the BestBefore repository.

The Python sources embedded here are:
* `backend/api/service/ingredient_combiner_service.py`
  (`combine_dish_ingredients`, `scale_ingredients`, `combine_ingredients`,
  `add_quantities`, unit helpers, `categorize_ingredients`),
* `backend/api/dish_ingre_service.py` (`DishIngredientService`),
* `backend/api/views.py` (`search_dishes`, `is_pantry_item`).

Modelling conventions (used consistently through the file):
* Python `str` is modelled by `String` / `List Char`; the regex character
  classes `\d` and `\s` are modelled by their ASCII parts (`Char.isDigit`
  and the six ASCII whitespace characters).  All string literals appearing
  in the sources are ASCII, and every regex in the sources uses the same
  two classes, so the claims settled below do not depend on the non-ASCII
  part of the classes.
* Python `float` arithmetic in `add_quantities` and `scale_ingredients`
  is modelled by an exact binary64 model (`PyFloat`): a dyadic mantissa
  and exponent produced by correct round-to-nearest-even, with overflow
  to infinity at the IEEE threshold, and the `OverflowError` that
  `int()` raises on an infinite value.  The cache-path measurement
  normalizer settles only concrete reference inputs, on which exact
  decimal arithmetic (`Dec`) coincides with the float semantics.
* Python exceptions are modelled by `Except String`; a function that the
  source cannot complete normally returns `Except.error`.
* External state (the database-backed dish cache, the `dish_mappings`
  table and the network-backed Claude ingredient generator) is modelled
  as an explicit environment record passed to the embedded functions.
-/

set_option maxRecDepth 16384

/-! ### Character-level helpers -/

/-- ASCII part of the regex class `\s` (Python `re` whitespace). -/
def isPySpace (c : Char) : Bool :=
  c = ' ' || c = '\t' || c = '\n' || c = '\r' || c = '\x0b' || c = '\x0c'

/-- ASCII part of the regex class `[a-zA-Z]`. -/
def isAsciiAlpha (c : Char) : Bool :=
  ('a' ≤ c && c ≤ 'z') || ('A' ≤ c && c ≤ 'Z')

/-- Python `str.lower()` on a character list (ASCII case folding). -/
def pyLowerL (l : List Char) : List Char := l.map Char.toLower

/-- Python `str.lower()` on a string. -/
def pyLower (s : String) : String := String.mk (pyLowerL s.data)

/-- Python `str.strip()` on a character list: drop whitespace on both ends. -/
def pyStripL (l : List Char) : List Char :=
  ((l.dropWhile isPySpace).reverse.dropWhile isPySpace).reverse

/-- Python `str.strip()` on a string. -/
def pyStrip (s : String) : String := String.mk (pyStripL s.data)

/-- Value of a nonempty list of decimal digit characters
(Python `int` applied to the digits matched by `(\d+)`). -/
def digitsToNat (l : List Char) : Nat :=
  l.foldl (fun a c => 10 * a + (c.toNat - 48)) 0

/-- Python `int(s)` on an arbitrary string: succeeds exactly when the text is a
plain digit run (the only calls modelled below pass either digit runs or the
count labels `piece/pieces/large/medium/small`, for which this is exact). -/
def pyIntParse (l : List Char) : Option Nat :=
  if l ≠ [] && l.all Char.isDigit then some (digitsToNat l) else none

/-- An exact decimal number `man / 10 ^ exp`, used only by the measurement
normalizer (`_standardize_measurement`), whose claims are settled at
concrete reference inputs where this exact arithmetic coincides with the
float arithmetic of CPython (small integers throughout). -/
structure Dec where
  man : ℤ
  exp : ℕ

/-- Multiplication of an exact decimal by an integer. -/
def decMulInt (a : Dec) (k : ℤ) : Dec := ⟨a.man * k, a.exp⟩

/-- Python `int()` truncation toward zero of an exact decimal. -/
def pyInt (a : Dec) : ℤ := Int.tdiv a.man ((10 : ℤ) ^ a.exp)

/-- Exact-decimal value of a numeral matched by `(\d+(?:\.\d+)?)`: the digits
with the dot removed form the mantissa, the fraction length the exponent. -/
def decOfNumeral (l : List Char) : Dec :=
  match (l.dropWhile Char.isDigit) with
  | '.' :: fs => ⟨(digitsToNat (l.takeWhile Char.isDigit ++ fs) : ℤ), fs.length⟩
  | _ => ⟨(digitsToNat (l.takeWhile Char.isDigit) : ℤ), 0⟩

/-! ### Binary64 floats

CPython's `float` is an IEEE-754 binary64 value.  `PyFloat` models the
values reachable in the sources exactly: a finite value is a mantissa
times a power of two in the canonical form produced by `roundPos`, and
overflow produces a signed infinity.  NaN is not modelled: the sources
never subtract, never multiply infinities by zero, and only add values of
equal sign, so no operation sequence starting from parsed numerals can
produce one. -/
inductive PyFloat where
  | fin (man : ℤ) (exp : ℤ)
  | inf (neg : Bool)
deriving DecidableEq

/-- The IEEE-754 binary64 overflow threshold of round-to-nearest-even: a
real value of this magnitude or more rounds to infinity (it is the midpoint
between the largest finite double and `2^1024`). -/
def OVF : Nat := 2 ^ 1024 - 2 ^ 970

/-- Binary digit count of a value below `2 ^ 64`, with fuel. -/
def bitLen64 : Nat → Nat → Nat
  | 0, _ => 0
  | fuel + 1, n => if n = 0 then 0 else bitLen64 fuel (n / 2) + 1

/-- Binary digit count, scanning 64 bits per step; every value it is applied
to below is smaller than `2 ^ 2200` (the finite branch of `roundPos` scales
a value below `2 ^ 1024` by `2 ^ 1100`), so the fuel never runs out. -/
def bitLenAux : Nat → Nat → Nat
  | 0, _ => 0
  | fuel + 1, n => if n < 2 ^ 64 then bitLen64 64 n else bitLenAux fuel (n / 2 ^ 64) + 64

/-- See `bitLenAux`. -/
def bitLen (n : Nat) : Nat := bitLenAux 40 n

/-- Round `num / den` to the nearest natural number, ties to even. -/
def rheNat (num den : Nat) : Nat :=
  if 2 * (num % den) < den then num / den
  else if den < 2 * (num % den) then num / den + 1
  else if (num / den) % 2 = 0 then num / den else num / den + 1

/-- Correctly round the nonnegative real `num / den` to the nearest binary64
value (ties to even), overflowing to infinity at the IEEE threshold.  The
finite result is canonical: zero is `fin 0 0`, a normal value has a
53-bit mantissa, a subnormal value has exponent `-1074`. -/
def roundPos (num den : Nat) : PyFloat :=
  if den * OVF ≤ num then .inf false
  else if num * 2 ^ 1100 / den = 0 then .fin 0 0
  else
    let E : ℤ := max ((bitLen (num * 2 ^ 1100 / den) : ℤ) - 1 - 1100 - 52) (-1074)
    let n : Nat := rheNat (num * 2 ^ (-E).toNat) (den * 2 ^ E.toNat)
    if n = 0 then .fin 0 0
    else if n = 2 ^ 53 then .fin (2 ^ 52) (E + 1)
    else .fin n E

/-- Negation of a binary64 value (negative zero is not distinguished; it is
unreachable in the sources). -/
def pfNeg : PyFloat → PyFloat
  | .fin m E => .fin (-m) E
  | .inf s => .inf (!s)

/-- Correctly round the real `num / den` to binary64. -/
def roundQZ (num : ℤ) (den : Nat) : PyFloat :=
  if num < 0 then pfNeg (roundPos (-num).toNat den) else roundPos num.toNat den

/-- Python `float` of a numeral matched by `(\d+(?:\.\d+)?)`: CPython's
string-to-float conversion is correctly rounded, overflowing to infinity. -/
def pyFloatOfNumeral (l : List Char) : PyFloat :=
  match (l.dropWhile Char.isDigit) with
  | '.' :: fs => roundPos (digitsToNat (l.takeWhile Char.isDigit ++ fs)) (10 ^ fs.length)
  | _ => roundPos (digitsToNat (l.takeWhile Char.isDigit)) 1

/-- IEEE binary64 addition: the exact sum, correctly rounded.  The infinite
cases propagate; `inf + -inf` (NaN) is unreachable, as the sources only add
nonnegative values. -/
def pfAdd : PyFloat → PyFloat → PyFloat
  | .inf s, _ => .inf s
  | .fin _ _, .inf s => .inf s
  | .fin m1 E1, .fin m2 E2 =>
    roundQZ ((m1 * 2 ^ (E1 - min E1 E2).toNat + m2 * 2 ^ (E2 - min E1 E2).toNat) *
             2 ^ (min E1 E2).toNat)
            (2 ^ (-(min E1 E2)).toNat)

/-- IEEE binary64 multiplication by an integer: the exact product, correctly
rounded.  `inf * 0` (NaN) is unreachable (the sources multiply by 1000 or by
a serving count greater than 1). -/
def pfMulInt : PyFloat → ℤ → PyFloat
  | .fin m E, k => roundQZ (m * k * 2 ^ E.toNat) (2 ^ (-E).toNat)
  | .inf s, k => if k < 0 then .inf (!s) else if k = 0 then .fin 0 0 else .inf s

/-- IEEE binary64 division by 1000: the exact quotient, correctly rounded. -/
def pfDiv1000 : PyFloat → PyFloat
  | .fin m E => roundQZ (m * 2 ^ E.toNat) (1000 * 2 ^ (-E).toNat)
  | .inf s => .inf s

/-- The comparison `x >= 1000` on binary64 values (exact). -/
def pfGE1000 : PyFloat → Bool
  | .fin m E => decide ((1000 : ℤ) * 2 ^ (-E).toNat ≤ m * 2 ^ E.toNat)
  | .inf s => !s

/-- Python `x == int(x)` on a finite float: is the value whole? -/
def pfIsWhole : PyFloat → Bool
  | .fin m E => decide (0 ≤ E) || decide (Int.emod m ((2 : ℤ) ^ (-E).toNat) = 0)
  | .inf _ => false

/-- The message of the `OverflowError` that CPython's `int()` raises on an
infinite float. -/
def ovfMsg : String := "OverflowError: cannot convert float infinity to integer"

/-- Python `int()` on a float: truncation toward zero, raising
`OverflowError` on an infinite value. -/
def pfToInt : PyFloat → Except String ℤ
  | .fin m E =>
    .ok (if 0 ≤ E then m * 2 ^ E.toNat else Int.tdiv m ((2 : ℤ) ^ (-E).toNat))
  | .inf _ => .error ovfMsg

/-- Round `num / den` to the nearest integer, ties to even (sign-symmetric,
as IEEE rounding is). -/
def rheZ (num : ℤ) (den : Nat) : ℤ :=
  if num < 0 then -(rheNat (-num).toNat den : ℤ) else (rheNat num.toNat den : ℤ)

/-- Python `f"{x:.1f}"`: the exact binary64 value times ten, rounded to the
nearest integer with ties to even, printed with one decimal digit. -/
def fmt1f : PyFloat → String
  | .inf s => if s then "-inf" else "inf"
  | .fin m E =>
    (if rheZ (m * 10 * 2 ^ E.toNat) (2 ^ (-E).toNat) < 0 then "-" else "") ++
    toString ((rheZ (m * 10 * 2 ^ E.toNat) (2 ^ (-E).toNat)).natAbs / 10) ++ "." ++
    toString ((rheZ (m * 10 * 2 ^ E.toNat) (2 ^ (-E).toNat)).natAbs % 10)

/-! Shortest-round-trip repr of a finite float (CPython `repr`/`str`): the
fewest significant decimal digits whose correctly-rounded float value is the
original, laid out positionally for decimal exponents in `[-4, 16)` and in
exponent notation otherwise. -/

/-- Decimal exponent `floor(log10 v)` of `v = m * 2 ^ E > 0` (the guard
scaling covers every positive binary64 value, down to `2 ^ -1074`). -/
def decExp10 (m : Nat) (E : ℤ) : ℤ :=
  ((toString (m * 2 ^ E.toNat * 10 ^ 400 / 2 ^ (-E).toNat)).length : ℤ) - 1 - 400

/-- Correctly round `v = m * 2 ^ E` to `k` significant decimal digits:
returns the digit block and its power-of-ten scale. -/
def roundSig (m : Nat) (E : ℤ) (k : Nat) : Nat × ℤ :=
  if rheNat (m * 2 ^ E.toNat * 10 ^ (-(decExp10 m E - k + 1)).toNat)
       (2 ^ (-E).toNat * 10 ^ (decExp10 m E - k + 1).toNat) = 10 ^ k then
    (10 ^ (k - 1), decExp10 m E - k + 2)
  else
    (rheNat (m * 2 ^ E.toNat * 10 ^ (-(decExp10 m E - k + 1)).toNat)
       (2 ^ (-E).toNat * 10 ^ (decExp10 m E - k + 1).toNat),
     decExp10 m E - k + 1)

/-- The float value of the decimal `D * 10 ^ s` (a round-trip parse). -/
def sigToFloat (D : Nat) (s : ℤ) : PyFloat :=
  roundPos (D * 10 ^ s.toNat) (10 ^ (-s).toNat)

/-- Search the shortest digit count (1 to 17) whose rounded decimal parses
back to the original float; 17 digits always round-trip. -/
def pickAux (m : Nat) (E : ℤ) : Nat → Nat → Nat × ℤ
  | _, 0 => roundSig m E 17
  | k, fuel + 1 =>
    if sigToFloat (roundSig m E k).1 (roundSig m E k).2 = PyFloat.fin (m : ℤ) E then
      roundSig m E k
    else pickAux m E (k + 1) fuel

/-- See `pickAux`. -/
def reprPick (m : Nat) (E : ℤ) : Nat × ℤ := pickAux m E 1 17

/-- Lay out the digits `ds` with decimal exponent `p` as CPython `repr`
does: positionally when `-4 <= p < 16` (with a trailing `.0` for whole
values), in exponent notation otherwise. -/
def reprLayout (ds : List Char) (p : ℤ) : String :=
  if -4 ≤ p ∧ p < 16 then
    (if (ds.length : ℤ) - 1 ≤ p then
       String.mk ds ++ String.mk (List.replicate (p - ((ds.length : ℤ) - 1)).toNat '0') ++ ".0"
     else if 0 ≤ p then
       String.mk (ds.take (p.toNat + 1)) ++ "." ++ String.mk (ds.drop (p.toNat + 1))
     else "0." ++ String.mk (List.replicate (-p - 1).toNat '0') ++ String.mk ds)
  else
    String.mk (ds.take 1) ++
    (if ds.length > 1 then "." ++ String.mk (ds.drop 1) else "") ++
    "e" ++ (if p < 0 then "-" else "+") ++
    (if p.natAbs < 10 then "0" else "") ++ toString p.natAbs

/-- Repr of a positive finite float `m * 2 ^ E`. -/
def pfReprPos (m : Nat) (E : ℤ) : String :=
  reprLayout (toString (reprPick m E).1).data
    ((reprPick m E).2 + ((toString (reprPick m E).1).length : ℤ) - 1)

/-- Python `str`/`repr` of a float. -/
def pfStr : PyFloat → String
  | .inf neg => if neg then "-inf" else "inf"
  | .fin m E =>
    if m = 0 then "0.0"
    else (if m < 0 then "-" else "") ++ pfReprPos m.natAbs E

/-- Python `needle.startswith`-style comparison on character lists:
`startsWithChars needle hay` holds when `needle` is an initial segment of
`hay`. -/
def startsWithChars : List Char → List Char → Bool
  | [], _ => true
  | _ :: _, [] => false
  | a :: as, b :: bs => a == b && startsWithChars as bs

/-- Python `needle in hay` substring test on character lists. -/
def hasSubChars : List Char → List Char → Bool
  | needle, [] => startsWithChars needle []
  | needle, c :: t => startsWithChars needle (c :: t) || hasSubChars needle t

/-- Python `needle in hay` on strings. -/
def contains_sub (needle hay : String) : Bool := hasSubChars needle.data hay.data

/-- Predicate `endsWithChars l suf` holds when `suf` is a final segment of `l`. -/
def endsWithChars (l suf : List Char) : Bool :=
  startsWithChars suf.reverse l.reverse

/-! ### The quantity regexes of `ingredient_combiner_service.py`

`re.match(r'^(\d+(?:\.\d+)?)\s*(.*)$', q)` and friends.  Each translation
returns the captured groups.  The sources' regexes are deterministic after
leftmost-greedy matching (the character classes of adjacent pieces are
disjoint), which the comments below record case by case. -/

/-- The optional fraction `(?:\.\d+)?` after the integer digits `ds`, applied
to the remaining text `t`: greedy, falling back to the empty match when no
digit follows the dot.  Returns (group 1 so far, remaining text). -/
def fracPart (ds t : List Char) : List Char × List Char :=
  if t.head? = some '.' then
    (if (t.drop 1).takeWhile Char.isDigit = [] then (ds, t)
     else (ds ++ '.' :: (t.drop 1).takeWhile Char.isDigit,
           (t.drop 1).dropWhile Char.isDigit))
  else (ds, t)

/-- Regex `re.match(r'^(\d+(?:\.\d+)?)\s*(.*)$', l)`: returns `(group 1, group 2)`.
`\d+` is greedy and cannot trade characters with `\s*` or `(.*)` (disjoint
classes / match-anything), so maximal munch is the regex's unique answer. -/
def numMatch (l : List Char) : Option (List Char × List Char) :=
  if l.takeWhile Char.isDigit = [] then none
  else
    some ((fracPart (l.takeWhile Char.isDigit) (l.dropWhile Char.isDigit)).1,
          (fracPart (l.takeWhile Char.isDigit) (l.dropWhile Char.isDigit)).2.dropWhile isPySpace)

/-- Is the remaining text exactly one of the count labels of
`(pieces?|large|medium|small)$`? -/
def isPiecesLabel (l : List Char) : Bool :=
  decide (l = "piece".data) || decide (l = "pieces".data) ||
  decide (l = "large".data) || decide (l = "medium".data) ||
  decide (l = "small".data)

/-- Regex `re.match(r'^(\d+)\s+(pieces?|large|medium|small)$', l)`: returns
`(group 1, group 2)`.  Because of the `$` anchor the label must be the whole
remainder after the (necessarily maximal) whitespace run: no label starts
with a space or a digit, so backtracking `\s+` or `\d+` can never succeed. -/
def piecesMatch (l : List Char) : Option (List Char × List Char) :=
  if l.takeWhile Char.isDigit = [] then none
  else if (l.dropWhile Char.isDigit).takeWhile isPySpace = [] then none
  else if isPiecesLabel ((l.dropWhile Char.isDigit).dropWhile isPySpace) then
    some (l.takeWhile Char.isDigit, (l.dropWhile Char.isDigit).dropWhile isPySpace)
  else none

/-- Regex `re.match(r'^(\d+)x\s+(.*)$', l)`: returns `(group 1, group 2)`.
`\d+` is maximal (`x` is not a digit) and `\s+` is maximal (`(.*)` accepts
anything), so group 2 starts after the whitespace run following `x`. -/
def nxMatch (l : List Char) : Option (List Char × List Char) :=
  if l.takeWhile Char.isDigit = [] then none
  else if (l.dropWhile Char.isDigit).head? = some 'x' then
    (if ((l.dropWhile Char.isDigit).drop 1).takeWhile isPySpace = [] then none
     else some (l.takeWhile Char.isDigit,
                ((l.dropWhile Char.isDigit).drop 1).dropWhile isPySpace))
  else none

/-! ### Unit helpers of `ingredient_combiner_service.py` -/

/-- Source `is_weight_unit` (lines 244-247). -/
def is_weight_unit (unit : List Char) : Bool :=
  ["g", "gram", "grams", "kg", "kilogram", "kilograms"].any
    (fun u => pyLowerL unit = u.data)

/-- Source `is_volume_unit` (lines 249-252). -/
def is_volume_unit (unit : List Char) : Bool :=
  ["ml", "milliliter", "milliliters", "l", "liter", "liters"].any
    (fun u => pyLowerL unit = u.data)

/-- Source `convert_to_grams` (lines 254-260). -/
def convert_to_grams (value : PyFloat) (unit : List Char) : PyFloat :=
  if ["kg", "kilogram", "kilograms"].any (fun u => pyLowerL unit = u.data)
  then pfMulInt value 1000 else value

/-- Source `convert_to_ml` (lines 262-268). -/
def convert_to_ml (value : PyFloat) (unit : List Char) : PyFloat :=
  if ["l", "liter", "liters"].any (fun u => pyLowerL unit = u.data)
  then pfMulInt value 1000 else value

/-- Source `format_weight` (lines 270-280).  The `int(kg)` inside the
whole-number test of line 275 raises `OverflowError` when the value is
infinite, which an `Except` result records. -/
def format_weight (grams : PyFloat) : Except String String :=
  if pfGE1000 grams then
    match pfToInt (pfDiv1000 grams) with
    | .error e => .error e
    | .ok k =>
      if pfIsWhole (pfDiv1000 grams) then .ok (toString k ++ " kg")
      else .ok (fmt1f (pfDiv1000 grams) ++ " kg")
  else
    match pfToInt grams with
    | .error e => .error e
    | .ok n => .ok (toString n ++ " g")

/-- Source `format_volume` (lines 282-292); see `format_weight`. -/
def format_volume (ml : PyFloat) : Except String String :=
  if pfGE1000 ml then
    match pfToInt (pfDiv1000 ml) with
    | .error e => .error e
    | .ok k =>
      if pfIsWhole (pfDiv1000 ml) then .ok (toString k ++ " l")
      else .ok (fmt1f (pfDiv1000 ml) ++ " l")
  else
    match pfToInt ml with
    | .error e => .error e
    | .ok n => .ok (toString n ++ " ml")

/-! ### `add_quantities` (lines 171-242) -/

/-- The identical-unit branch (lines 199-204): `int(total)` in the
whole-number test of line 202 raises `OverflowError` on an infinite sum;
otherwise a whole total prints as an integer and any other total through
the float repr, then `f"{total} {q1_unit}".strip()`. -/
def fmtTotalUnit (total : PyFloat) (unit : List Char) : Except String String :=
  match pfToInt total with
  | .error e => .error e
  | .ok n =>
    if pfIsWhole total then .ok (pyStrip (toString n ++ " " ++ String.mk unit))
    else .ok (pyStrip (pfStr total ++ " " ++ String.mk unit))

/-- Lines 231-242 of `add_quantities`: the `Nx` merge and the final
irreducible `"q1 + q2"` fallback.  Always returns normally. -/
def addNx (q1 q2 : String) : Except String String :=
  match nxMatch q1.data, nxMatch q2.data with
  | some n1, some n2 =>
    if n1.2 = n2.2 then
      .ok (toString (digitsToNat n1.1 + digitsToNat n2.1) ++ "x " ++ String.mk n1.2)
    else .ok (q1 ++ " + " ++ q2)
  | _, _ => .ok (q1 ++ " + " ++ q2)

/-- Lines 218-229 of `add_quantities`: the count branch.  Its body runs
`count2 = int(pieces2_match.group(2))` — group 2 is the textual label, so the
conversion raises `ValueError` (modelled by `pyIntParse` returning `none`)
whenever the body is reached. -/
def addTail (q1 q2 : String) : Except String String :=
  match piecesMatch q1.data, piecesMatch q2.data with
  | some p1, some p2 =>
    if p1.2 = p2.2 then
      match pyIntParse p2.2 with
      | none => .error "ValueError: invalid literal for int()"
      | some c2 =>
        .ok (toString (digitsToNat p1.1 + c2) ++ " " ++
             String.mk (if p1.2 = "piece".data ∧ digitsToNat p1.1 + c2 > 1
                        then "pieces".data else p1.2))
    else addNx q1 q2
  | _, _ => addNx q1 q2

/-- Lines 188-242 of `add_quantities`: everything after the `"as needed"`
short-circuits.  The unit of each side is `group(2).strip()` (line 195-196). -/
def addParsed (q1 q2 : String) : Except String String :=
  match numMatch q1.data, numMatch q2.data with
  | some m1, some m2 =>
    if pyStripL m1.2 = pyStripL m2.2 then
      fmtTotalUnit (pfAdd (pyFloatOfNumeral m1.1) (pyFloatOfNumeral m2.1)) (pyStripL m1.2)
    else if is_weight_unit (pyStripL m1.2) && is_weight_unit (pyStripL m2.2) then
      format_weight (pfAdd (convert_to_grams (pyFloatOfNumeral m1.1) (pyStripL m1.2))
            (convert_to_grams (pyFloatOfNumeral m2.1) (pyStripL m2.2)))
    else if is_volume_unit (pyStripL m1.2) && is_volume_unit (pyStripL m2.2) then
      format_volume (pfAdd (convert_to_ml (pyFloatOfNumeral m1.1) (pyStripL m1.2))
            (convert_to_ml (pyFloatOfNumeral m2.1) (pyStripL m2.2)))
    else addTail q1 q2
  | _, _ => addTail q1 q2

/-- Source `add_quantities` (lines 171-242). -/
def add_quantities (q1 q2 : String) : Except String String :=
  if q1 = "as needed" then .ok q2
  else if q2 = "as needed" then .ok q1
  else addParsed q1 q2

/-- Does control reach the body of the count branch (lines 223-229)?
Computed from the same control conditions that guard it in the source:
neither side is `"as needed"`, the numeric-unit block (lines 192-216) fell
through without returning, and both count regexes match with an identical
label. -/
def fellThroughNum (q1 q2 : String) : Bool :=
  match numMatch q1.data, numMatch q2.data with
  | some m1, some m2 =>
    if pyStripL m1.2 = pyStripL m2.2 then false
    else if is_weight_unit (pyStripL m1.2) && is_weight_unit (pyStripL m2.2) then false
    else if is_volume_unit (pyStripL m1.2) && is_volume_unit (pyStripL m2.2) then false
    else true
  | _, _ => true

/-- See `fellThroughNum`. -/
def pieces_branch_entered (q1 q2 : String) : Bool :=
  if q1 = "as needed" then false
  else if q2 = "as needed" then false
  else if fellThroughNum q1 q2 then
    match piecesMatch q1.data, piecesMatch q2.data with
    | some p1, some p2 => decide (p1.2 = p2.2)
    | _, _ => false
  else false

/-! ### Ingredient records and `scale_ingredients` (lines 65-133) -/

/-- A Python ingredient dict as consumed through `.get`: both keys may be
absent (`none`). -/
structure Ingredient where
  name : Option String
  quantity : Option String

/-- An ingredient dict built by the pipeline itself, where both keys are
always present. -/
structure NamedQty where
  name : String
  quantity : String

/-- View of a `NamedQty` as a general dict. -/
def toIngredient (nq : NamedQty) : Ingredient := ⟨some nq.name, some nq.quantity⟩

/-- The formatting of line 104:
`str(new_amount).rstrip('0').rstrip('.') if '.' in str(new_amount) else str(int(new_amount))`.
When the repr contains a dot the trailing zeros and dot are stripped; when
it does not (exponent notation, or `inf`), `int()` runs — and raises
`OverflowError` on an infinite value. -/
def pyFmtScaled (x : PyFloat) : Except String String :=
  if (pfStr x).data.contains '.' then
    .ok (String.mk ((((pfStr x).data.reverse.dropWhile (fun c => c = '0')).dropWhile
      (fun c => c = '.')).reverse))
  else
    match pfToInt x with
    | .error e => .error e
    | .ok n => .ok (toString n)

/-- Lines 92-123: scale one quantity string by `quantity > 1` servings.
The `try`/`except` of lines 92/121 catches exactly the `OverflowError` of
`int(new_amount)` on an infinite product (every other conversion in the body
is applied to text matched by `\d+` groups and cannot fail), falling back to
the `f"{quantity}x {original_quantity}"` format. -/
def scaleQuantity (oq : String) (quantity : Int) : String :=
  match numMatch oq.data with
  | some m =>
    match pyFmtScaled (pfMulInt (pyFloatOfNumeral m.1) quantity) with
    | .ok formatted => pyStrip (formatted ++ " " ++ String.mk m.2)
    | .error _ => toString quantity ++ "x " ++ oq
  | none =>
    match piecesMatch oq.data with
    | some p =>
      toString ((digitsToNat p.1 : Int) * quantity) ++ " " ++
      String.mk (if p.2 = "piece".data ∧ (digitsToNat p.1 : Int) * quantity > 1
                 then "pieces".data else p.2)
    | none => toString quantity ++ "x " ++ oq

/-- Source `scale_ingredients` (lines 65-133). -/
def scale_ingredients (ingredients : List Ingredient) (quantity : Int) : List Ingredient :=
  if quantity ≤ 1 then ingredients
  else
    ingredients.foldl
      (fun acc ing =>
        match ing.name with
        | none => acc
        | some nm =>
          if nm = "" then acc
          else
            acc ++ [⟨some nm,
              some (if ing.quantity.getD "as needed" = "as needed"
                    then ing.quantity.getD "as needed"
                    else scaleQuantity (ing.quantity.getD "as needed") quantity)⟩])
      []

/-! ### `combine_ingredients` (lines 135-169) -/

/-- Update the stored quantity of the first association-list entry with the
given key by `add_quantities` (the in-place
`combined[name]['quantity'] = add_quantities(...)` of line 160, which keeps
the dict's insertion order). -/
def assocUpdate : List (String × NamedQty) → String → String → Except String (List (String × NamedQty))
  | [], _, _ => .ok []
  | (k, v) :: rest, key, q2 =>
    if k = key then do
      let s ← add_quantities v.quantity q2
      .ok ((k, ⟨v.name, s⟩) :: rest)
    else do
      let r ← assocUpdate rest key q2
      .ok ((k, v) :: r)

/-- The loop of lines 151-166: fold the ingredient list into an insertion-
ordered association list keyed by lowercased name. -/
def combineLoop : List (String × NamedQty) → List Ingredient → Except String (List (String × NamedQty))
  | acc, [] => .ok acc
  | acc, ing :: rest =>
    if pyLower (ing.name.getD "") = "" then combineLoop acc rest
    else
      match acc.find? (fun kv => kv.1 == pyLower (ing.name.getD "")) with
      | some _ => do
        let acc' ← assocUpdate acc (pyLower (ing.name.getD "")) (ing.quantity.getD "as needed")
        combineLoop acc' rest
      | none =>
        combineLoop
          (acc ++ [(pyLower (ing.name.getD ""),
                    ⟨ing.name.getD "", ing.quantity.getD "as needed"⟩)]) rest

/-- Source `combine_ingredients` (lines 135-169). -/
def combine_ingredients (l : List Ingredient) : Except String (List NamedQty) :=
  if l.isEmpty then .ok []
  else do
    let pairs ← combineLoop [] l
    .ok (pairs.map (fun kv => kv.2))

/-! ### `categorize_ingredients` / `determine_category` (lines 294-359) -/

/-- Source `determine_category` (lines 323-359). -/
def determine_category (ingredientName : String) : String :=
  if ["beef", "chicken", "pork", "turkey", "veal", "lamb", "ground meat", "steak",
      "sausage"].any (fun k => contains_sub k (pyLower ingredientName)) then "Meat"
  else if ["fish", "salmon", "tuna", "cod", "tilapia", "shrimp", "seafood", "crab",
      "lobster"].any (fun k => contains_sub k (pyLower ingredientName)) then "Fish"
  else if ["vegetable", "fruit", "tomato", "lettuce", "onion", "garlic", "pepper",
      "carrot", "broccoli", "cabbage", "spinach", "apple", "orange", "banana",
      "herb", "lemon"].any (fun k => contains_sub k (pyLower ingredientName)) then "Produce"
  else if ["milk", "cheese", "yogurt", "butter", "cream", "dairy", "ice cream"].any
      (fun k => contains_sub k (pyLower ingredientName)) then "Dairy"
  else if ["rice", "pasta", "bread", "flour", "cereal", "oat", "grain", "wheat",
      "barley"].any (fun k => contains_sub k (pyLower ingredientName)) then "Grains"
  else if ["sauce", "oil", "vinegar", "ketchup", "mustard", "mayo", "dressing",
      "seasoning", "spice"].any (fun k => contains_sub k (pyLower ingredientName)) then "Condiments"
  else "Other"

/-- Append an item to the bucket of category `c` (line 318). -/
def catInsert : List (String × List NamedQty) → String → NamedQty → List (String × List NamedQty)
  | [], _, _ => []
  | (k, v) :: rest, c, i =>
    if k = c then (k, v ++ [i]) :: rest else (k, v) :: catInsert rest c i

/-- Source `categorize_ingredients` (lines 294-321): bucket by category in the fixed
category order, then drop empty buckets. -/
def categorize_ingredients (items : List NamedQty) : List (String × List NamedQty) :=
  (items.foldl
      (fun cats i => catInsert cats (determine_category (pyLower i.name)) i)
      (["Meat", "Fish", "Produce", "Dairy", "Grains", "Condiments", "Other"].map
        (fun c => (c, ([] : List NamedQty))))).filter
    (fun p => !p.2.isEmpty)

/-- Source `is_pantry_item`: defined identically in
`ingredient_combiner_service.py` (lines 361-370) and `views.py`
(lines 888-902); the aggregation endpoint uses the `views.py` copy. -/
def is_pantry_item (ingredient : String) : Bool :=
  ["salt", "pepper", "sugar", "flour", "oil", "vinegar", "spice", "herb",
   "seasoning", "stock", "pasta", "rice", "grain", "canned", "dried", "baking",
   "sauce"].any (fun k => contains_sub k (pyLower ingredient))

/-! ### `DishIngredientService._standardize_measurement`
(`dish_ingre_service.py`, lines 150-199)

The unit rules use `re.search(r'(\d+(?:\.\d+)?)\s*LITS', quantity)`, where
`LITS` is an alternation of unit words, possibly with an optional final `s`.
An optional trailing `s` never affects whether a match exists, and the
alternatives all start with a letter (disjoint from `\s` and from `\.`), so
a match at a position exists exactly when a maximal digit run with optional
fraction is followed, after whitespace, by one of the unit words;
`re.search` takes the leftmost such position. -/

/-- Match `(\d+(?:\.\d+)?)\s*(?:lit₁|lit₂|...)` anchored at the start of `l`;
returns group 1. -/
def matchAt (lits : List (List Char)) (l : List Char) : Option (List Char) :=
  if l.takeWhile Char.isDigit = [] then none
  else
    (if lits.any (fun lit => startsWithChars lit
          ((fracPart (l.takeWhile Char.isDigit) (l.dropWhile Char.isDigit)).2.dropWhile isPySpace))
     then some (fracPart (l.takeWhile Char.isDigit) (l.dropWhile Char.isDigit)).1
     else none)

/-- Regex `re.search`: leftmost position at which `matchAt` succeeds. -/
def searchUnit (lits : List (List Char)) : List Char → Option (List Char)
  | [] => none
  | c :: rest =>
    match matchAt lits (c :: rest) with
    | some g1 => some g1
    | none => searchUnit lits rest

/-- Source `_standardize_measurement` (lines 150-199).  `name` arrives already
lowercased by the caller (`_filter_fresh_ingredients`, line 133).  The unit
conversions are modelled with exact decimal arithmetic, which coincides with
the float arithmetic at every input a theorem below evaluates (small exact
integers throughout). -/
def standardize_measurement (name quantity : String) : String :=
  if quantity = "as needed" then
    if ["meat", "chicken", "beef", "pork", "steak"].any
        (fun w => contains_sub w name) then "250g"
    else if ["fish", "salmon", "tuna"].any (fun w => contains_sub w name) then "200g"
    else if ["vegetable", "carrot", "potato", "tomato"].any
        (fun w => contains_sub w name) then "100g"
    else quantity
  else
    match searchUnit ["cup".data] quantity.data with
    | some g1 =>
      if ["milk", "water", "juice", "broth", "stock"].any (fun w => contains_sub w name)
      then toString (pyInt (decMulInt (decOfNumeral g1) 240)) ++ "ml"
      else toString (pyInt (decMulInt (decOfNumeral g1) 150)) ++ "g"
    | none =>
    match searchUnit ["tbsp".data, "tablespoon".data] quantity.data with
    | some g1 => toString (pyInt (decMulInt (decOfNumeral g1) 15)) ++ "ml"
    | none =>
    match searchUnit ["tsp".data, "teaspoon".data] quantity.data with
    | some g1 => toString (pyInt (decMulInt (decOfNumeral g1) 5)) ++ "ml"
    | none =>
    match searchUnit ["oz".data, "ounce".data] quantity.data with
    | some g1 => toString (pyInt (decMulInt (decOfNumeral g1) 28)) ++ "g"
    | none =>
    match searchUnit ["lb".data, "pound".data] quantity.data with
    | some g1 => toString (pyInt (decMulInt (decOfNumeral g1) 454)) ++ "g"
    | none => quantity

/-! ### `DishIngredientService._parse_ingredients` (lines 351-392)

Token pattern `^(\d+(?:\.\d+)?(?:/\d+)?)\s*([a-zA-Z]+)?\s+(.+)$`.  Here the
engine's backtracking is observable (`\s*` can hand spaces back to `\s+`,
and the optional unit group can shrink), so the translation enumerates the
candidate splits in exactly the engine's greedy order. -/

/-- The optional `(?:/\d+)?` after the numeral `a`, applied to text `t`. -/
def slashPart (a t : List Char) : List Char × List Char :=
  if t.head? = some '/' then
    (if (t.drop 1).takeWhile Char.isDigit = [] then (a, t)
     else (a ++ '/' :: (t.drop 1).takeWhile Char.isDigit,
           (t.drop 1).dropWhile Char.isDigit))
  else (a, t)

/-- Group 1 of the token pattern with the text that follows it. -/
def amountSplit (l : List Char) : Option (List Char × List Char) :=
  if l.takeWhile Char.isDigit = [] then none
  else
    some (slashPart (fracPart (l.takeWhile Char.isDigit) (l.dropWhile Char.isDigit)).1
            (fracPart (l.takeWhile Char.isDigit) (l.dropWhile Char.isDigit)).2)

/-- Regex `\s+(.+)$` applied to `rest`: at least one space, then a nonempty group 3
(`\s+` hands back all but one space when only whitespace remains). -/
def nameSplit (rest : List Char) : Option (List Char) :=
  match rest with
  | [] => none
  | c :: t =>
    if isPySpace c then
      (if (c :: t).dropWhile isPySpace ≠ [] then some ((c :: t).dropWhile isPySpace)
       else if t ≠ [] then some [t.getLastD ' ']
       else none)
    else none

/-- Try unit-group candidates, longest first (`revU` is the reversed current
candidate, `suf` the text after it); the last candidate is the skipped
optional group. -/
def unitBack : List Char → List Char → Option (List Char × List Char)
  | revU, suf =>
    match nameSplit suf with
    | some nm => some (revU.reverse, nm)
    | none =>
      match revU with
      | [] => none
      | c :: revU' => unitBack revU' (c :: suf)

/-- Try `\s*` candidates, longest first; at each, the unit group starts with
its maximal alphabetic run. -/
def wsBack : List Char → List Char → Option (List Char × List Char)
  | revWs, suf =>
    match unitBack (suf.takeWhile isAsciiAlpha).reverse (suf.dropWhile isAsciiAlpha) with
    | some r => some r
    | none =>
      match revWs with
      | [] => none
      | c :: revWs' => wsBack revWs' (c :: suf)

/-- Groups 2 and 3 of the token pattern applied after the numeral. -/
def wsUnitName (rest : List Char) : Option (List Char × List Char) :=
  wsBack (rest.takeWhile isPySpace).reverse (rest.dropWhile isPySpace)

/-- Regex `re.match` of the full token pattern: `(group 1, group 2 or "", group 3)`. -/
def tokenMatch (l : List Char) : Option (List Char × List Char × List Char) :=
  match amountSplit l with
  | none => none
  | some (a, rest) =>
    match wsUnitName rest with
    | none => none
    | some (unit, nm) => some (a, unit, nm)

/-- Lines 373-390: structure a single token. -/
def parse_token (t : String) : NamedQty :=
  match tokenMatch t.data with
  | some (a, unit, nm) =>
    ⟨String.mk nm, pyStrip (String.mk a ++ " " ++ String.mk unit)⟩
  | none => ⟨t, "as needed"⟩

/-- Python `str.split(sep)` for a one-character separator. -/
def splitOnChar (sep : Char) : List Char → List (List Char)
  | [] => [[]]
  | c :: t =>
    if c = sep then [] :: splitOnChar sep t
    else
      match splitOnChar sep t with
      | [] => [[c]]
      | h :: r => (c :: h) :: r

/-- Lines 358-370: split on `;`, then on `,`, stripping and dropping empty
parts after each split. -/
def splitTokens (s : String) : List String :=
  (((((splitOnChar ';' s.data).map (fun p => String.mk (pyStripL p))).filter
      (fun p => p ≠ "")).map
    (fun p => (((splitOnChar ',' p.data).map (fun q => String.mk (pyStripL q))).filter
      (fun q => q ≠ "")))).flatten)

/-- Source `_parse_ingredients` (lines 351-392). -/
def parse_ingredients (ingredientsString : String) : List NamedQty :=
  if ingredientsString = "" then []
  else (splitTokens ingredientsString).map parse_token

/-- The household lexicon of `DishIngredientService.__init__` (lines 27-34);
a Python `set` consumed only through `any(item in name for item in ...)`,
for which the iteration order is irrelevant. -/
def household_items : List String :=
  ["salt", "pepper", "olive oil", "vegetable oil", "canola oil", "cooking oil",
   "sugar", "flour", "baking powder", "baking soda", "vanilla extract",
   "soy sauce", "vinegar", "oil", "black pepper", "white pepper", "oregano",
   "basil", "thyme", "rosemary", "paprika", "cumin", "cinnamon", "nutmeg",
   "mayonnaise", "ketchup", "mustard", "hot sauce", "butter", "margarine",
   "dried herbs", "spices", "seasoning"]

/-- Source `_filter_fresh_ingredients` (lines 128-148). -/
def filter_fresh_ingredients (l : List NamedQty) : List NamedQty :=
  l.foldl
    (fun acc ing =>
      if household_items.any (fun it => contains_sub it (pyLower ing.name)) then acc
      else acc ++ [⟨ing.name, standardize_measurement (pyLower ing.name) ing.quantity⟩])
    []

/-! ### `DishIngredientService.get_ingredients` (lines 81-126) -/

/-- The result dict of `get_ingredients`: either the success shape
`{dish, ingredients, match_type[, note]}` or the failure shape
`{error, suggestions}`. -/
inductive ResolutionResult where
  | ok (dish : String) (ingredients : List Ingredient) (matchType : String)
       (note : Option String)
  | err (error : String) (suggestions : List String)

/-- The service's external state: the dish cache (loaded lowercased from the
`food_ingredients` table), the `dish_mappings` table, and the Claude
ingredient generator.  The generator is an oracle returning `none` for any
failure (missing key, transport error, unparseable reply) and otherwise the
validated `{name, quantity}` list. -/
structure DishEnv where
  dishCache : List (String × String)
  dishMappings : List (String × String)
  claude : String → Option (List NamedQty)

/-- Source `_get_mapped_dish` (lines 201-215): first row with
`LOWER(user_term) = LOWER(input)`. -/
def get_mapped_dish (env : DishEnv) (userInput : String) : Option String :=
  (env.dishMappings.find? (fun kv => pyLower kv.1 == pyLower userInput)).map
    (fun kv => kv.2)

/-- Source `_get_popular_dishes` (lines 307-310). -/
def get_popular_dishes (env : DishEnv) (count : Nat) : List String :=
  (env.dishCache.map (fun kv => kv.1)).take count

/-- Step 3 of `get_ingredients` (lines 112-126): the Claude fallback and the
final miss. -/
def claudeStep (env : DishEnv) (userDishInput userInput : String) : ResolutionResult :=
  match env.claude userInput with
  | some ings =>
    if ings.isEmpty then
      .err "No matching dish found" (get_popular_dishes env 5)
    else
      .ok userDishInput (ings.map toIngredient) "claude_generated"
        (some "Fresh ingredients generated by Claude AI")
  | none => .err "No matching dish found" (get_popular_dishes env 5)

/-- Source `get_ingredients` (lines 81-126). -/
def get_ingredients (env : DishEnv) (userDishInput : String) : ResolutionResult :=
  match env.dishCache.find? (fun kv => kv.1 == pyStrip (pyLower userDishInput)) with
  | some kv =>
    .ok (pyStrip (pyLower userDishInput))
      ((filter_fresh_ingredients (parse_ingredients kv.2)).map toIngredient)
      "exact" none
  | none =>
    match get_mapped_dish env (pyStrip (pyLower userDishInput)) with
    | some mapped =>
      if mapped ≠ "" then
        match env.dishCache.find? (fun kv => kv.1 == pyLower mapped) with
        | some kv =>
          .ok mapped ((filter_fresh_ingredients (parse_ingredients kv.2)).map toIngredient)
            "mapped" none
        | none => claudeStep env userDishInput (pyStrip (pyLower userDishInput))
      else claudeStep env userDishInput (pyStrip (pyLower userDishInput))
    | none => claudeStep env userDishInput (pyStrip (pyLower userDishInput))

/-! ### `combine_dish_ingredients` (`ingredient_combiner_service.py`,
lines 6-63) and the `search_dishes` endpoint (`views.py`, lines 784-838) -/

/-- One entry of `selected_dishes` / `selected_meals`, consumed through
`dish.get('name')` and `dish.get('quantity', 1)`. -/
structure DishSel where
  name : Option String
  quantity : Option Int

/-- The dict returned by `combine_dish_ingredients` (lines 58-63). -/
structure CombineOutput where
  success : Bool
  dishes : List String
  missingDishes : List String
  itemsByCategory : List (String × List NamedQty)

/-- The loop body of lines 27-50, accumulating
`(all_ingredients, found_dishes, missing_dishes)`. -/
def dishStep (env : DishEnv) (acc : List Ingredient × List String × List String)
    (d : DishSel) : List Ingredient × List String × List String :=
  match d.name with
  | none => acc
  | some nm =>
    if nm = "" then acc
    else
      match get_ingredients env nm with
      | .err _ _ => (acc.1, acc.2.1, acc.2.2 ++ [nm])
      | .ok dish ingredients _ _ =>
        (acc.1 ++ scale_ingredients ingredients (d.quantity.getD 1),
         acc.2.1 ++ [dish], acc.2.2)

/-- Source `combine_dish_ingredients` (lines 6-63). -/
def combine_dish_ingredients (env : DishEnv) (selected : List DishSel) :
    Except String CombineOutput := do
  let combined ← combine_ingredients (selected.foldl (dishStep env) ([], [], [])).1
  Except.ok
    ⟨!(selected.foldl (dishStep env) ([], [], [])).2.1.isEmpty,
     (selected.foldl (dishStep env) ([], [], [])).2.1,
     (selected.foldl (dishStep env) ([], [], [])).2.2,
     categorize_ingredients combined⟩

/-- The final response dict of `search_dishes`: `pantry_items = none` models
the key being absent from the response. -/
structure SearchResponse where
  success : Bool
  dishes : List String
  missingDishes : List String
  itemsByCategory : List (String × List NamedQty)
  pantry_items : Option (List NamedQty)

/-- Lines 811-815 of `views.py`: collect the pantry-matching ingredients of
every category bucket, in iteration order. -/
def collect_pantry (cats : List (String × List NamedQty)) : List NamedQty :=
  cats.foldl (fun acc p => acc ++ p.2.filter (fun i => is_pantry_item i.name)) []

/-- Lines 810-834 of `views.py`: the pantry post-processing of the combiner
result.  When no pantry item is found (`if pantry_items:` is false) the
result dict is returned as-is, without a `pantry_items` key. -/
def search_dishes_post (result : CombineOutput) : SearchResponse :=
  if (collect_pantry result.itemsByCategory).isEmpty then
    ⟨result.success, result.dishes, result.missingDishes, result.itemsByCategory, none⟩
  else
    ⟨result.success, result.dishes, result.missingDishes,
     ((result.itemsByCategory.map
         (fun p => (p.1, p.2.filter (fun i => !is_pantry_item i.name)))).filter
       (fun p => !p.2.isEmpty)),
     some (collect_pantry result.itemsByCategory)⟩

/-- The three response shapes of the `search_dishes` view. -/
inductive ViewResponse where
  | okResp (body : SearchResponse)
  | badRequest (error : String)
  | serverError (error : String)

/-- Source `search_dishes` (`views.py`, lines 784-838): reject an empty selection,
run the combiner, post-process pantry items; any exception becomes a 500
response. -/
def search_dishes (env : DishEnv) (selectedMeals : List DishSel) : ViewResponse :=
  if selectedMeals.isEmpty then .badRequest "No meals selected"
  else
    match combine_dish_ingredients env selectedMeals with
    | .ok result => .okResp (search_dishes_post result)
    | .error e => .serverError e

/-! ### Helper lemmas -/

/-- A nonempty `takeWhile` forces a head satisfying the predicate. -/
theorem exists_cons_of_takeWhile_ne_nil {p : Char → Bool} {t : List Char}
    (h : t.takeWhile p ≠ []) : ∃ c t', t = c :: t' ∧ p c = true := by
  cases t with
  | nil => simp [List.takeWhile] at h
  | cons c t' =>
    by_cases hc : p c
    · exact ⟨c, t', rfl, hc⟩
    · simp [List.takeWhile_cons, hc] at h

/-- Helper `fracPart` is the identity on a remainder that does not start with a dot. -/
theorem fracPart_of_head_ne_dot {ds t : List Char} (h : t.head? ≠ some '.') :
    fracPart ds t = (ds, t) := by
  unfold fracPart
  rw [if_neg h]

/-- Core control-flow fact: any text matched by the count regex
`^(\d+)\s+(pieces?|large|medium|small)$` is also matched by the general
numeric regex `^(\d+(?:\.\d+)?)\s*(.*)$`, with the same two groups. -/
theorem numMatch_of_piecesMatch {l : List Char} {p : List Char × List Char}
    (h : piecesMatch l = some p) : numMatch l = some p := by
  unfold piecesMatch at h
  by_cases h1 : l.takeWhile Char.isDigit = []
  · rw [if_pos h1] at h; exact absurd h (by simp)
  · rw [if_neg h1] at h
    by_cases h2 : (l.dropWhile Char.isDigit).takeWhile isPySpace = []
    · rw [if_pos h2] at h; exact absurd h (by simp)
    · rw [if_neg h2] at h
      by_cases h3 : isPiecesLabel ((l.dropWhile Char.isDigit).dropWhile isPySpace) = true
      · rw [if_pos h3] at h
        obtain ⟨c, t', ht, hc⟩ := exists_cons_of_takeWhile_ne_nil h2
        have hdot : (l.dropWhile Char.isDigit).head? ≠ some '.' := by
          rw [ht]
          intro hco
          have hcd : c = '.' := by simpa using hco
          subst hcd
          exact absurd hc (by decide)
        unfold numMatch
        rw [if_neg h1, fracPart_of_head_ne_dot hdot]
        exact h
      · rw [if_neg h3] at h; exact absurd h (by simp)

/-- The stripped unit of a count label is the label itself. -/
theorem pyStripL_of_piecesLabel {l : List Char} (h : isPiecesLabel l = true) :
    pyStripL l = l := by
  unfold isPiecesLabel at h
  simp only [Bool.or_eq_true, decide_eq_true_eq] at h
  rcases h with (((h | h) | h) | h) | h <;> subst h <;> decide

/-- A successful count match records one of the five labels as group 2. -/
theorem piecesMatch_label {l : List Char} {p : List Char × List Char}
    (h : piecesMatch l = some p) : isPiecesLabel p.2 = true := by
  unfold piecesMatch at h
  by_cases h1 : l.takeWhile Char.isDigit = []
  · rw [if_pos h1] at h; exact absurd h (by simp)
  · rw [if_neg h1] at h
    by_cases h2 : (l.dropWhile Char.isDigit).takeWhile isPySpace = []
    · rw [if_pos h2] at h; exact absurd h (by simp)
    · rw [if_neg h2] at h
      by_cases h3 : isPiecesLabel ((l.dropWhile Char.isDigit).dropWhile isPySpace) = true
      · rw [if_pos h3] at h
        have hinj := Option.some.inj h
        rw [← hinj]
        exact h3
      · rw [if_neg h3] at h; exact absurd h (by simp)

/-- The `Nx` merge and irreducible-join tail always returns normally. -/
theorem addNx_ok (q1 q2 : String) : ∃ s, addNx q1 q2 = Except.ok s := by
  unfold addNx
  split
  · split
    · exact ⟨_, rfl⟩
    · exact ⟨_, rfl⟩
  · exact ⟨_, rfl⟩

/-- When the two count regexes do not both match with an identical label,
the whole tail after the numeric-unit block returns normally. -/
theorem addTail_ok (q1 q2 : String)
    (h : ∀ p1 p2, piecesMatch q1.data = some p1 → piecesMatch q2.data = some p2 →
         p1.2 ≠ p2.2) :
    ∃ s, addTail q1 q2 = Except.ok s := by
  unfold addTail
  cases hp1 : piecesMatch q1.data with
  | none => simp only [hp1]; exact addNx_ok q1 q2
  | some p1 =>
    cases hp2 : piecesMatch q2.data with
    | none => simp only [hp1, hp2]; exact addNx_ok q1 q2
    | some p2 =>
      simp only [hp1, hp2]
      rw [if_neg (h p1 p2 hp1 hp2)]
      exact addNx_ok q1 q2

/-- The identical-unit formatter returns normally on a finite total and
raises the `int`-of-infinity `OverflowError` otherwise. -/
theorem fmtTotalUnit_ok_or_ovf (t : PyFloat) (u : List Char) :
    (∃ s, fmtTotalUnit t u = Except.ok s) ∨ fmtTotalUnit t u = Except.error ovfMsg := by
  cases t with
  | inf s => right; rfl
  | fin m E =>
    left
    unfold fmtTotalUnit
    simp only [pfToInt]
    by_cases hw : pfIsWhole (PyFloat.fin m E) = true
    · rw [if_pos hw]; exact ⟨_, rfl⟩
    · rw [if_neg hw]; exact ⟨_, rfl⟩

/-- The weight formatter returns normally when its divisions stay finite and
raises the `int`-of-infinity `OverflowError` otherwise. -/
theorem format_weight_ok_or_ovf (g : PyFloat) :
    (∃ s, format_weight g = Except.ok s) ∨ format_weight g = Except.error ovfMsg := by
  unfold format_weight
  by_cases hge : pfGE1000 g = true
  · rw [if_pos hge]
    cases hdiv : pfDiv1000 g with
    | inf s => right; rfl
    | fin m' E' =>
      left
      simp only [pfToInt]
      by_cases hw : pfIsWhole (PyFloat.fin m' E') = true
      · rw [if_pos hw]; exact ⟨_, rfl⟩
      · rw [if_neg hw]; exact ⟨_, rfl⟩
  · rw [if_neg hge]
    cases g with
    | inf s => right; rfl
    | fin m E => left; exact ⟨_, rfl⟩

/-- The volume formatter returns normally when its divisions stay finite and
raises the `int`-of-infinity `OverflowError` otherwise. -/
theorem format_volume_ok_or_ovf (g : PyFloat) :
    (∃ s, format_volume g = Except.ok s) ∨ format_volume g = Except.error ovfMsg := by
  unfold format_volume
  by_cases hge : pfGE1000 g = true
  · rw [if_pos hge]
    cases hdiv : pfDiv1000 g with
    | inf s => right; rfl
    | fin m' E' =>
      left
      simp only [pfToInt]
      by_cases hw : pfIsWhole (PyFloat.fin m' E') = true
      · rw [if_pos hw]; exact ⟨_, rfl⟩
      · rw [if_neg hw]; exact ⟨_, rfl⟩
  · rw [if_neg hge]
    cases g with
    | inf s => right; rfl
    | fin m E => left; exact ⟨_, rfl⟩

/-- After the `"as needed"` short-circuits, `add_quantities` either returns
normally or raises the `int`-of-infinity `OverflowError` of a float
overflow: when both count regexes match with an identical label, the same
text is matched by the general numeric regex with string-identical stripped
units, so the identical-unit branch returns first and the count branch body
— whose `int` on the label would raise `ValueError` — is never reached. -/
theorem addParsed_ok_or_ovf (q1 q2 : String) :
    (∃ s, addParsed q1 q2 = Except.ok s) ∨ addParsed q1 q2 = Except.error ovfMsg := by
  by_cases hg : ∃ p1 p2, piecesMatch q1.data = some p1 ∧ piecesMatch q2.data = some p2 ∧ p1.2 = p2.2
  · obtain ⟨p1, p2, hp1, hp2, hlab⟩ := hg
    have hn1 := numMatch_of_piecesMatch hp1
    have hn2 := numMatch_of_piecesMatch hp2
    have hs1 := pyStripL_of_piecesLabel (piecesMatch_label hp1)
    have hs2 := pyStripL_of_piecesLabel (piecesMatch_label hp2)
    unfold addParsed
    simp only [hn1, hn2]
    rw [if_pos (by rw [hs1, hs2, hlab])]
    exact fmtTotalUnit_ok_or_ovf _ _
  · push_neg at hg
    have htail : ∃ s, addTail q1 q2 = Except.ok s :=
      addTail_ok q1 q2 (fun p1 p2 h1 h2 => hg p1 p2 h1 h2)
    unfold addParsed
    cases hn1 : numMatch q1.data with
    | none => simp only [hn1]; exact Or.inl htail
    | some m1 =>
      cases hn2 : numMatch q2.data with
      | none => simp only [hn1, hn2]; exact Or.inl htail
      | some m2 =>
        simp only [hn1, hn2]
        by_cases hu : pyStripL m1.2 = pyStripL m2.2
        · rw [if_pos hu]; exact fmtTotalUnit_ok_or_ovf _ _
        · rw [if_neg hu]
          by_cases hw : (is_weight_unit (pyStripL m1.2) && is_weight_unit (pyStripL m2.2)) = true
          · rw [if_pos hw]; exact format_weight_ok_or_ovf _
          · rw [if_neg hw]
            by_cases hv : (is_volume_unit (pyStripL m1.2) && is_volume_unit (pyStripL m2.2)) = true
            · rw [if_pos hv]; exact format_volume_ok_or_ovf _
            · rw [if_neg hv]; exact Or.inl htail

/-- The count-branch body is never entered. -/
theorem pieces_branch_entered_false (q1 q2 : String) :
    pieces_branch_entered q1 q2 = false := by
  unfold pieces_branch_entered
  by_cases h1 : q1 = "as needed"
  · rw [if_pos h1]
  · rw [if_neg h1]
    by_cases h2 : q2 = "as needed"
    · rw [if_pos h2]
    · rw [if_neg h2]
      by_cases hf : fellThroughNum q1 q2 = true
      · rw [if_pos hf]
        cases hp1 : piecesMatch q1.data with
        | none => simp
        | some p1 =>
          cases hp2 : piecesMatch q2.data with
          | none => simp
          | some p2 =>
            simp only [decide_eq_false_iff_not]
            intro hlab
            have hn1 := numMatch_of_piecesMatch hp1
            have hn2 := numMatch_of_piecesMatch hp2
            have hs1 := pyStripL_of_piecesLabel (piecesMatch_label hp1)
            have hs2 := pyStripL_of_piecesLabel (piecesMatch_label hp2)
            unfold fellThroughNum at hf
            simp only [hn1, hn2] at hf
            rw [if_pos (by rw [hs1, hs2, hlab])] at hf
            exact absurd hf (by simp)
      · rw [if_neg hf]

/-- Every element collected by the pantry scan satisfies `is_pantry_item`. -/
theorem collect_pantry_all (cats : List (String × List NamedQty)) (acc : List NamedQty)
    (hacc : acc.all (fun i => is_pantry_item i.name) = true) :
    (cats.foldl (fun acc p => acc ++ p.2.filter (fun i => is_pantry_item i.name)) acc).all
      (fun i => is_pantry_item i.name) = true := by
  induction cats generalizing acc with
  | nil => simpa using hacc
  | cons p rest ih =>
    simp only [List.foldl_cons]
    apply ih
    simp only [List.all_append, hacc, Bool.true_and]
    simp only [List.all_eq_true, List.mem_filter]
    intro i hi
    exact hi.2

/-! ### Claim theorems -/

/-- C2: the measurement normalizer returns exactly the spec's reference
outputs, each produced with integer truncation (`pyInt`). -/
theorem standardize_reference_outputs :
    standardize_measurement "chicken" "2 cups" = "300g" ∧
    standardize_measurement "milk" "1 cup" = "240ml" ∧
    standardize_measurement "sauce" "3 tbsp" = "45ml" ∧
    standardize_measurement "spice" "2 tsp" = "10ml" ∧
    standardize_measurement "meat" "16 oz" = "448g" ∧
    standardize_measurement "beef" "2 lb" = "908g" ∧
    standardize_measurement "tomato" "as needed" = "100g" ∧
    standardize_measurement "chicken" "as needed" = "250g" :=
  ⟨by decide, by decide, by decide, by decide, by decide, by decide, by decide, by decide⟩

/-- C5 (counterexample): a numeral of 310 digits converts to an infinite
float, and the `int(total)` of the identical-unit branch (line 202) then
raises `OverflowError`, so `add_quantities` does not return normally for
every pair of input strings. -/
theorem add_quantities_overflow_counterexample :
    add_quantities (String.mk ('1' :: (List.replicate 309 '0' ++ " g".data))) "1 g" =
      Except.error "OverflowError: cannot convert float infinity to integer" := by
  rfl

/-- C5 (amended): for every pair of input strings, `add_quantities` either
returns a string or raises the `OverflowError` of `int()` applied to an
infinite float (possible only when a parsed numeral or intermediate sum or
product overflows the float range); in particular the body of the count
branch (lines 223-229, whose `int(pieces2_match.group(2))` would raise
`ValueError`) is unreachable: two count quantities with an identical label
are merged by the earlier identical-unit rule. -/
theorem add_quantities_ok_or_overflow :
    ∀ q1 q2 : String,
      ((∃ s, add_quantities q1 q2 = Except.ok s) ∨
        add_quantities q1 q2 = Except.error ovfMsg) ∧
      pieces_branch_entered q1 q2 = false := by
  intro q1 q2
  refine ⟨?_, pieces_branch_entered_false q1 q2⟩
  unfold add_quantities
  by_cases h1 : q1 = "as needed"
  · rw [if_pos h1]; exact Or.inl ⟨_, rfl⟩
  · rw [if_neg h1]
    by_cases h2 : q2 = "as needed"
    · rw [if_pos h2]; exact Or.inl ⟨_, rfl⟩
    · rw [if_neg h2]; exact addParsed_ok_or_ovf q1 q2

/-- C6: `"as needed"` is a two-sided identity for pairwise quantity
addition. -/
theorem as_needed_identity :
    ∀ q : String,
      add_quantities "as needed" q = Except.ok q ∧
      add_quantities q "as needed" = Except.ok q := by
  intro q
  constructor
  · simp [add_quantities]
  · by_cases h : q = "as needed"
    · subst h; simp [add_quantities]
    · simp [add_quantities, h]

/-- C7: scaling by one serving returns the ingredient list unchanged. -/
theorem scale_by_one_serving_identity :
    ∀ l : List Ingredient, scale_ingredients l 1 = l := by
  intro l
  unfold scale_ingredients
  rw [if_pos (by decide)]

/-- C3 (evaluation at the failing input): the code sums the counts through
the identical-unit numeric branch and never pluralizes, so
`add_quantities "1 piece" "1 piece"` is `"2 piece"`, whose label does not
end in `"pieces"`. -/
theorem add_one_piece_twice_not_pluralized :
    add_quantities "1 piece" "1 piece" = Except.ok "2 piece" ∧
    endsWithChars "2 piece".data "pieces".data = false :=
  ⟨by rfl, by decide⟩

/-- C4 (evaluation at the failing input): scaling `"1 piece"` by 3 servings
goes through the generic numeric branch (the pieces branch of
`scale_ingredients` is unreachable) and yields `"3 piece"`, not
`"3 pieces"`. -/
theorem scale_one_piece_three_not_pluralized :
    scale_ingredients [⟨some "egg", some "1 piece"⟩] 3 =
      [⟨some "egg", some "3 piece"⟩] ∧
    endsWithChars "3 piece".data "pieces".data = false :=
  ⟨by rfl, by decide⟩

/-- C8 (counterexample): when resolution falls through to the external
generator and it returns a usable list, the result's `match_type` is the
string `"claude_generated"`, which is not the declared value `"generated"`
(the result also carries an extra `note` field). -/
theorem generated_match_type_counterexample :
    get_ingredients ⟨[], [], fun _ => some [⟨"chicken breast", "500g"⟩]⟩ "mystery stew" =
      ResolutionResult.ok "mystery stew" [⟨some "chicken breast", some "500g"⟩]
        "claude_generated" (some "Fresh ingredients generated by Claude AI") ∧
    ("claude_generated" : String) ≠ "generated" :=
  ⟨by rfl, by decide⟩

/-- C8 (amended): whenever the exact tier misses, every applicable alias
tier misses, and the external generator returns a usable (non-empty) list,
the resolution result is built with `match_type = "claude_generated"` and a
fixed `note`. -/
theorem generated_match_type_claude :
    ∀ (env : DishEnv) (input : String) (ings : List NamedQty),
      env.dishCache.find? (fun kv => kv.1 == pyStrip (pyLower input)) = none →
      (∀ m, get_mapped_dish env (pyStrip (pyLower input)) = some m → m ≠ "" →
            env.dishCache.find? (fun kv => kv.1 == pyLower m) = none) →
      env.claude (pyStrip (pyLower input)) = some ings →
      ings ≠ [] →
      get_ingredients env input =
        ResolutionResult.ok input (ings.map toIngredient) "claude_generated"
          (some "Fresh ingredients generated by Claude AI") := by
  intro env input ings hc hm hcl hne
  have hstep : claudeStep env input (pyStrip (pyLower input)) =
      ResolutionResult.ok input (ings.map toIngredient) "claude_generated"
        (some "Fresh ingredients generated by Claude AI") := by
    unfold claudeStep
    simp only [hcl]
    rw [if_neg (by simp [List.isEmpty_iff, hne])]
  unfold get_ingredients
  simp only [hc]
  cases hmd : get_mapped_dish env (pyStrip (pyLower input)) with
  | none => simp only [hmd]; exact hstep
  | some m =>
    simp only [hmd]
    by_cases hme : m ≠ ""
    · rw [if_pos hme]
      simp only [hm m hmd hme]
      exact hstep
    · rw [if_neg hme]
      exact hstep

/-- C8 (witness for the amended theorem). -/
theorem generated_match_type_claude_witness :
    get_ingredients ⟨[], [], fun _ => some [⟨"chicken breast", "500g"⟩]⟩ "pho" =
      ResolutionResult.ok "pho" ([(⟨"chicken breast", "500g"⟩ : NamedQty)].map toIngredient)
        "claude_generated" (some "Fresh ingredients generated by Claude AI") :=
  generated_match_type_claude ⟨[], [], fun _ => some [⟨"chicken breast", "500g"⟩]⟩ "pho"
    [⟨"chicken breast", "500g"⟩] (by rfl)
    (fun m hm _ => Option.noConfusion hm) (by rfl) (by simp)

/-- C9 (counterexample): a successful aggregation with no staple-matching
ingredient is returned without any `pantry_items` field (`none` models the
absent key), because the source adds the key only inside
`if pantry_items:`. -/
theorem pantry_key_counterexample :
    search_dishes ⟨[("x", "chicken")], [], fun _ => none⟩ [⟨some "x", none⟩] =
      ViewResponse.okResp ⟨true, ["x"], [], [("Meat", [⟨"chicken", "250g"⟩])], none⟩ :=
  by rfl

/-- C9 (amended): the aggregation response carries a `pantry_items` field
exactly when at least one categorized ingredient matches the staple lexicon;
the field then holds precisely the (non-empty) list of staple-matching
ingredients pulled from the category buckets. -/
theorem pantry_key_iff_staples :
    ∀ result : CombineOutput,
      ((search_dishes_post result).pantry_items = none ↔
        collect_pantry result.itemsByCategory = []) ∧
      (∀ l, (search_dishes_post result).pantry_items = some l →
        l = collect_pantry result.itemsByCategory ∧ l ≠ [] ∧
        l.all (fun i => is_pantry_item i.name) = true) := by
  intro result
  by_cases hp : (collect_pantry result.itemsByCategory).isEmpty = true
  · unfold search_dishes_post
    rw [if_pos hp]
    constructor
    · simp only [true_iff]
      exact List.isEmpty_iff.mp hp
    · intro l hl
      exact Option.noConfusion hl
  · unfold search_dishes_post
    rw [if_neg hp]
    constructor
    · constructor
      · intro hnone; exact Option.noConfusion hnone
      · intro hempty
        rw [List.isEmpty_iff] at hp
        exact absurd hempty hp
    · intro l hl
      have hl' := Option.some.inj hl
      refine ⟨hl'.symm, ?_, ?_⟩
      · rw [← hl']
        rw [List.isEmpty_iff] at hp
        exact hp
      · rw [← hl']
        exact collect_pantry_all result.itemsByCategory [] (by rfl)

/-- C9 (witness for the amended theorem). -/
theorem pantry_key_iff_staples_witness :
    [(⟨"soy sauce", "10ml"⟩ : NamedQty)] =
      collect_pantry
        (⟨true, ["x"], [], [("Condiments", [⟨"soy sauce", "10ml"⟩])]⟩ : CombineOutput).itemsByCategory ∧
    [(⟨"soy sauce", "10ml"⟩ : NamedQty)] ≠ [] ∧
    [(⟨"soy sauce", "10ml"⟩ : NamedQty)].all (fun i => is_pantry_item i.name) = true :=
  (pantry_key_iff_staples ⟨true, ["x"], [], [("Condiments", [⟨"soy sauce", "10ml"⟩])]⟩).2
    [⟨"soy sauce", "10ml"⟩] (by rfl)

/-- C10: an entry of the request list whose name is absent or empty is
skipped entirely: removing it leaves the result of
`combine_dish_ingredients` unchanged, so it triggers no resolution and
appears in neither `dishes` nor `missing_dishes`. -/
theorem empty_name_entry_skipped :
    ∀ (env : DishEnv) (l1 l2 : List DishSel) (d : DishSel),
      d.name = none ∨ d.name = some "" →
      combine_dish_ingredients env (l1 ++ d :: l2) =
        combine_dish_ingredients env (l1 ++ l2) := by
  intro env l1 l2 d hd
  have hstep : ∀ acc, dishStep env acc d = acc := by
    intro acc
    rcases hd with h | h <;> simp [dishStep, h]
  have hfold : ∀ init : List Ingredient × List String × List String,
      (l1 ++ d :: l2).foldl (dishStep env) init = (l1 ++ l2).foldl (dishStep env) init := by
    intro init
    rw [List.foldl_append, List.foldl_append, List.foldl_cons, hstep]
  unfold combine_dish_ingredients
  rw [hfold]

/-- C10 (witness). -/
theorem empty_name_entry_skipped_witness :
    combine_dish_ingredients ⟨[("x", "chicken")], [], fun _ => none⟩
        ([⟨some "x", none⟩] ++ (⟨none, some 2⟩ : DishSel) :: []) =
      combine_dish_ingredients ⟨[("x", "chicken")], [], fun _ => none⟩
        ([⟨some "x", none⟩] ++ []) :=
  empty_name_entry_skipped ⟨[("x", "chicken")], [], fun _ => none⟩
    [⟨some "x", none⟩] [] ⟨none, some 2⟩ (Or.inl rfl)
